import Mathlib

/-!
Verification of the resilience-and-dispatch core of rust-omnisearch-mcp.

Shallow embedding of src/common/circuit_breaker.rs, src/common/cache.rs,
src/common/rate_limiter.rs, src/config/mod.rs and src/client.rs.

Modelling conventions:
* Rust `Instant` timestamps and `Duration` values are natural numbers in one
  abstract time unit; `Instant::elapsed` becomes truncated subtraction
  (matching the saturating behaviour of `Instant` for non-monotone clocks).
* `std::collections::HashMap` is an association list whose list order models
  the unspecified iteration order of the map; lookups are by key, inserts either
  overwrite in place or append.
* Async operations are pure state-passing functions: every `call` is fully
  serialized in the source (the breaker requires `&mut self`, and the manager
  holds the registry write lock across the wrapped operation), so sequential
  state passing is faithful.
* A wrapped fallible operation is modelled by its outcome; a provider adapter
  (`Box<dyn SearchProvider>`) is modelled by its outcome for the dispatched
  request, and a cache backend (`Box<dyn CacheProvider>`) by its response to
  each operation.
* `f64` scores are modelled as exact rationals; no verified operation computes
  with scores. `eyre` source chains are opaque and modelled as `Option Unit`.
-/

namespace Omnisearch

/-- types.rs `ErrorType`. -/
inductive ErrorType where
  | ApiError
  | RateLimit
  | InvalidInput
  | ProviderError
deriving DecidableEq, Repr

/-- types.rs `ProviderError` (the `eyre` source chain is opaque). -/
structure ProviderError where
  error_type : ErrorType
  message : String
  provider : String
  source : Option Unit
deriving DecidableEq, Repr

/-- types.rs `SearchResult`. -/
structure SearchResult where
  title : String
  url : String
  snippet : String
  score : Option Rat
  source_provider : String
deriving DecidableEq, Repr

/-- types.rs `BaseSearchParams`. -/
structure BaseSearchParams where
  query : String
  limit : Option Nat
  include_domains : Option (List String)
  exclude_domains : Option (List String)
deriving DecidableEq, Repr

/-- Association-list rendering of `HashMap::get`. -/
def assocGet {β : Type} : List (String × β) → String → Option β
  | [], _ => none
  | kv :: rest, k => if kv.fst == k then some kv.snd else assocGet rest k

/-- `HashMap::insert`: overwrite an existing binding in place, else append. -/
def assocInsert {β : Type} (l : List (String × β)) (k : String) (v : β) : List (String × β) :=
  if l.any (fun kv => kv.fst == k) then
    l.map (fun kv => if kv.fst == k then (k, v) else kv)
  else
    l ++ [(k, v)]

/-- In-place update of the binding for `k` (used after `get_mut`). -/
def assocSet {β : Type} (l : List (String × β)) (k : String) (v : β) : List (String × β) :=
  l.map (fun kv => if kv.fst == k then (k, v) else kv)

/-! ## Circuit breaker (src/common/circuit_breaker.rs) -/

/-- circuit_breaker.rs `CircuitState`. -/
inductive CircuitState where
  | Closed
  | Open
  | HalfOpen
deriving DecidableEq, Repr

/-- circuit_breaker.rs `CircuitBreaker` (configuration and mutable state). -/
structure CircuitBreaker where
  failure_threshold : Nat
  timeout_duration : Nat
  half_open_max_calls : Nat
  failure_count : Nat
  success_count : Nat
  state : CircuitState
  last_failure_time : Option Nat
  state_changed_at : Nat
  half_open_calls : Nat
deriving DecidableEq, Repr

/-- `CircuitBreaker::new` (`now` is `Instant::now()` at construction). -/
def CircuitBreaker.new (failure_threshold timeout_duration half_open_max_calls now : Nat) :
    CircuitBreaker where
  failure_threshold := failure_threshold
  timeout_duration := timeout_duration
  half_open_max_calls := half_open_max_calls
  failure_count := 0
  success_count := 0
  state := .Closed
  last_failure_time := none
  state_changed_at := now
  half_open_calls := 0

/-- `CircuitBreaker::should_attempt_reset`: open, and at least `timeout_duration`
    has elapsed since `state_changed_at`. -/
def CircuitBreaker.should_attempt_reset (b : CircuitBreaker) (now : Nat) : Bool :=
  b.state == .Open && decide (b.timeout_duration ≤ now - b.state_changed_at)

/-- `CircuitBreaker::on_success` (`now` is `Instant::now()` when the operation completed). -/
def CircuitBreaker.on_success (b : CircuitBreaker) (now : Nat) : CircuitBreaker :=
  let b1 := { b with success_count := b.success_count + 1 }
  match b1.state with
  | .HalfOpen =>
      { b1 with state := .Closed, state_changed_at := now, failure_count := 0,
                half_open_calls := 0 }
  | .Closed =>
      if b1.failure_count > 0 then { b1 with failure_count := 0 } else b1
  | .Open => b1

/-- `CircuitBreaker::on_failure` (`now` is `Instant::now()` when the operation completed). -/
def CircuitBreaker.on_failure (b : CircuitBreaker) (now : Nat) : CircuitBreaker :=
  let b1 := { b with failure_count := b.failure_count + 1, last_failure_time := some now }
  match b1.state with
  | .Closed =>
      if b1.failure_threshold ≤ b1.failure_count then
        { b1 with state := .Open, state_changed_at := now }
      else b1
  | .HalfOpen =>
      { b1 with state := .Open, state_changed_at := now, half_open_calls := 0 }
  | .Open => b1

/-- The admission decision of `CircuitBreaker::call`. -/
inductive Admission where
  | rejectOpen
  | rejectHalfOpenLimit
  | allow
deriving DecidableEq, Repr

/-- The admission phase of `CircuitBreaker::call`: the `match self.state` block that
    runs before the wrapped operation is awaited (`now0` is `Instant::now()` at call entry). -/
def CircuitBreaker.admission (b : CircuitBreaker) (now0 : Nat) : Admission × CircuitBreaker :=
  match b.state with
  | .Open =>
      if b.should_attempt_reset now0 then
        (.allow, { b with state := .HalfOpen, state_changed_at := now0, half_open_calls := 0 })
      else
        (.rejectOpen, b)
  | .HalfOpen =>
      if b.half_open_max_calls ≤ b.half_open_calls then
        (.rejectHalfOpenLimit, b)
      else
        (.allow, { b with half_open_calls := b.half_open_calls + 1 })
  | .Closed => (.allow, b)

/-- Outcome of one `CircuitBreaker::call`: rejected with breaker-open semantics
    (in either the `Open` or the half-open-limit branch), or the operation was
    invoked and succeeded or failed. -/
inductive CBResult where
  | rejectedOpen
  | rejectedHalfOpenLimit
  | opSucceeded
  | opFailed
deriving DecidableEq, Repr

/-- Whether the wrapped operation was actually invoked. -/
def CBResult.invoked : CBResult → Bool
  | .opSucceeded => true
  | .opFailed => true
  | .rejectedOpen => false
  | .rejectedHalfOpenLimit => false

/-- `CircuitBreaker::call`. The wrapped operation is modelled by its outcome
    `opSucceeds`; `now0` is the clock at call entry (used by the admission check) and
    `now1` the clock when the operation completes (used by `on_success`/`on_failure`). -/
def CircuitBreaker.call (b : CircuitBreaker) (now0 now1 : Nat) (opSucceeds : Bool) :
    CBResult × CircuitBreaker :=
  match b.admission now0 with
  | (.rejectOpen, b1) => (.rejectedOpen, b1)
  | (.rejectHalfOpenLimit, b1) => (.rejectedHalfOpenLimit, b1)
  | (.allow, b1) =>
      if opSucceeds then (.opSucceeded, b1.on_success now1)
      else (.opFailed, b1.on_failure now1)

/-- `CircuitBreaker::reset`. -/
def CircuitBreaker.reset (b : CircuitBreaker) (now : Nat) : CircuitBreaker :=
  { b with state := .Closed, failure_count := 0, success_count := 0,
           last_failure_time := none, state_changed_at := now, half_open_calls := 0 }

/-- config/mod.rs `CircuitBreakerConfig`. -/
structure CircuitBreakerConfig where
  enabled : Bool
  failure_threshold : Nat
  timeout_seconds : Nat
  half_open_max_calls : Nat
deriving DecidableEq, Repr

/-- circuit_breaker.rs `CircuitBreakerManager`. -/
structure CircuitBreakerManager where
  breakers : List (String × CircuitBreaker)
  enabled : Bool
  failure_threshold : Nat
  timeout_duration : Nat
  half_open_max_calls : Nat
deriving DecidableEq, Repr

/-- `CircuitBreakerManager::new` (reads the circuit-breaker section of the config). -/
def CircuitBreakerManager.new (cfg : CircuitBreakerConfig) : CircuitBreakerManager where
  breakers := []
  enabled := cfg.enabled
  failure_threshold := cfg.failure_threshold
  timeout_duration := cfg.timeout_seconds
  half_open_max_calls := cfg.half_open_max_calls

/-- The `if !breakers.contains_key(provider) { insert new breaker }` step shared by
    `get_or_create_breaker` and the manager `call`. -/
def CircuitBreakerManager.ensure (m : CircuitBreakerManager) (provider : String) (now : Nat) :
    CircuitBreakerManager :=
  if (assocGet m.breakers provider).isSome then m
  else
    { m with breakers :=
        m.breakers ++
          [(provider,
            CircuitBreaker.new m.failure_threshold m.timeout_duration m.half_open_max_calls now)] }

/-- `CircuitBreakerManager::get_or_create_breaker` (source lines 206-231): inserts a
    breaker for an absent key, but then returns a freshly constructed
    `Arc::new(RwLock::new(CircuitBreaker::new(..)))` regardless of the stored entry,
    exactly as the source does after dropping the write guard. -/
def CircuitBreakerManager.get_or_create_breaker (m : CircuitBreakerManager) (provider : String)
    (now : Nat) : CircuitBreakerManager × CircuitBreaker :=
  (m.ensure provider now,
   CircuitBreaker.new m.failure_threshold m.timeout_duration m.half_open_max_calls now)

/-- `CircuitBreakerProvider::call` for `CircuitBreakerManager` (source lines 236-260):
    when disabled, run the operation directly; otherwise insert-if-absent, then mutate
    the stored breaker via `get_mut`. The `none` fallback is unreachable because
    `ensure` inserts the key (the source unwraps). -/
def CircuitBreakerManager.call (m : CircuitBreakerManager) (provider : String)
    (now0 now1 : Nat) (opSucceeds : Bool) : CBResult × CircuitBreakerManager :=
  if !m.enabled then
    ((if opSucceeds then .opSucceeded else .opFailed), m)
  else
    let m1 := m.ensure provider now0
    match assocGet m1.breakers provider with
    | some b =>
        let r := b.call now0 now1 opSucceeds
        (r.fst, { m1 with breakers := assocSet m1.breakers provider r.snd })
    | none => (.rejectedOpen, m1)

/-! ## Cache (src/common/cache.rs) -/

/-- config/mod.rs `CacheConfig`. The `type` and `redis` fields select the feature-gated
    redis backend and are not consumed by the verified memory backend. -/
structure CacheConfig where
  enabled : Bool
  ttl_seconds : Nat
  max_entries : Nat
deriving DecidableEq, Repr

/-- One entry of the moka cache backing `MemoryCache`. -/
structure MemoryCacheEntry where
  value : List SearchResult
  inserted_at : Nat
deriving DecidableEq, Repr

/-- cache.rs `MemoryCache`: a moka cache built with `max_capacity(config.max_entries)`
    and the builder-level `time_to_live(config.ttl_seconds)`. -/
structure MemoryCache where
  entries : List (String × MemoryCacheEntry)
  time_to_live : Nat
  max_capacity : Nat
deriving DecidableEq, Repr

/-- `MemoryCache::new`. -/
def MemoryCache.new (config : CacheConfig) : MemoryCache where
  entries := []
  time_to_live := config.ttl_seconds
  max_capacity := config.max_entries

/-- moka time-to-live expiry: an entry is expired once the builder-level TTL has
    elapsed since it was inserted. -/
def MemoryCacheEntry.expired (e : MemoryCacheEntry) (ttl now : Nat) : Bool :=
  decide (e.inserted_at + ttl ≤ now)

/-- `CacheProvider::get` for `MemoryCache`: present and not expired, else a miss. -/
def MemoryCache.get (c : MemoryCache) (key : String) (now : Nat) : Option (List SearchResult) :=
  match assocGet c.entries key with
  | some e => if e.expired c.time_to_live now then none else some e.value
  | none => none

/-- `CacheProvider::set` for `MemoryCache`. The per-call ttl argument is bound as
    `_ttl` in the source and ignored: expiry is governed by the builder-level
    `time_to_live`. Capacity eviction (asynchronous and approximate in moka) is not
    modelled; no claim depends on it. -/
def MemoryCache.set (c : MemoryCache) (key : String) (value : List SearchResult)
    (_ttl : Nat) (now : Nat) : MemoryCache :=
  { c with entries := assocInsert c.entries key { value := value, inserted_at := now } }

/-- `CacheProvider::delete` for `MemoryCache`. -/
def MemoryCache.delete (c : MemoryCache) (key : String) : MemoryCache :=
  { c with entries := c.entries.filter (fun kv => kv.fst != key) }

/-- `CacheProvider::clear` for `MemoryCache` (`invalidate_all`). -/
def MemoryCache.clear (c : MemoryCache) : MemoryCache :=
  { c with entries := [] }

/-- `CacheProvider::size` for `MemoryCache` (`entry_count`, approximate in moka:
    it may still count expired-but-unevicted entries). -/
def MemoryCache.size (c : MemoryCache) : Nat :=
  c.entries.length

/-- A cache backend behind `Box<dyn CacheProvider>`, modelled by its response to each
    operation. Backend errors (for example from the feature-gated redis backend) are
    the `Except.error` results. -/
structure CacheBackend where
  get_fn : String → Nat → Except String (Option (List SearchResult))
  set_fn : String → List SearchResult → Nat → Nat → Except String Unit
  delete_fn : String → Except String Unit
  clear_fn : Except String Unit
  size_fn : Except String Nat

/-- cache.rs `CacheManager`: a backend plus the config `enabled` flag. `CacheManager::new`
    with `config.enabled = false` produces `enabled := false` (with a memory backend). -/
structure CacheManager where
  provider : CacheBackend
  enabled : Bool

/-- `CacheManager::get`: disabled means an unconditional miss, never touching the backend. -/
def CacheManager.get (m : CacheManager) (key : String) (now : Nat) :
    Except String (Option (List SearchResult)) :=
  if !m.enabled then .ok none else m.provider.get_fn key now

/-- `CacheManager::set`: disabled is a no-op; enabled uses the configured global TTL. -/
def CacheManager.set (m : CacheManager) (cfg : CacheConfig) (key : String)
    (value : List SearchResult) (now : Nat) : Except String Unit :=
  if !m.enabled then .ok () else m.provider.set_fn key value cfg.ttl_seconds now

/-- `CacheManager::delete`: disabled is a no-op. -/
def CacheManager.delete (m : CacheManager) (key : String) : Except String Unit :=
  if !m.enabled then .ok () else m.provider.delete_fn key

/-- `CacheManager::clear`: disabled is a no-op. -/
def CacheManager.clear (m : CacheManager) : Except String Unit :=
  if !m.enabled then .ok () else m.provider.clear_fn

/-- `CacheManager::size`: disabled reports zero without touching the backend. -/
def CacheManager.size (m : CacheManager) : Except String Nat :=
  if !m.enabled then .ok 0 else m.provider.size_fn

/-! ## Rate limiter (src/common/rate_limiter.rs) -/

/-- config/mod.rs `RateLimitingConfig`. -/
structure RateLimitingConfig where
  enabled : Bool
  requests_per_minute : Nat
  burst_size : Nat
deriving DecidableEq, Repr

/-- config/mod.rs per-provider configuration. The source uses several per-provider
    struct shapes (`ProviderConfig`, `GoogleProviderConfig`, ...); only the fields the
    verified components consume are modelled (credential fields are not consumed). -/
structure ProviderConfig where
  enabled : Bool
  rate_limit : Nat
  timeout_seconds : Nat
deriving DecidableEq, Repr

/-- config/mod.rs `ProvidersConfig`. -/
structure ProvidersConfig where
  tavily : ProviderConfig
  google : ProviderConfig
  reddit : ProviderConfig
  duckduckgo : ProviderConfig
  baidu : ProviderConfig
  brightdata : ProviderConfig
  exa : ProviderConfig
  brave : ProviderConfig
  kagi : ProviderConfig
  perplexity : ProviderConfig
  jina : ProviderConfig
  firecrawl : ProviderConfig
deriving DecidableEq, Repr

/-- config/mod.rs `Config`, restricted to the sections the verified components read. -/
structure Config where
  cache : CacheConfig
  rate_limiting : RateLimitingConfig
  circuit_breaker : CircuitBreakerConfig
  providers : ProvidersConfig
deriving DecidableEq, Repr

/-- A governor `RateLimiter` as created by `GovernorLimiter::direct(quota)`. Only its
    creation-time quota is consumed by any claim; token-bucket dynamics are not. -/
structure ProviderRateLimiter where
  quota_per_minute : Nat
deriving DecidableEq, Repr

/-- rate_limiter.rs `RateLimiterManager`. -/
structure RateLimiterManager where
  limiters : List (String × ProviderRateLimiter)
  enabled : Bool
deriving DecidableEq, Repr

/-- `RateLimiterManager::new`: reads only the global enabled flag; performs no
    validation of any provider quota. -/
def RateLimiterManager.new (cfg : Config) : RateLimiterManager where
  limiters := []
  enabled := cfg.rate_limiting.enabled

/-- `RateLimiterManager::get_provider_rate_limit` (default 60 for unknown providers). -/
def get_provider_rate_limit (cfg : Config) (provider : String) : Nat :=
  match provider with
  | "tavily" => cfg.providers.tavily.rate_limit
  | "google" => cfg.providers.google.rate_limit
  | "reddit" => cfg.providers.reddit.rate_limit
  | "duckduckgo" => cfg.providers.duckduckgo.rate_limit
  | "baidu" => cfg.providers.baidu.rate_limit
  | "exa" => cfg.providers.exa.rate_limit
  | "brave" => cfg.providers.brave.rate_limit
  | "kagi" => cfg.providers.kagi.rate_limit
  | "perplexity" => cfg.providers.perplexity.rate_limit
  | "jina" => cfg.providers.jina.rate_limit
  | "firecrawl" => cfg.providers.firecrawl.rate_limit
  | "brightdata" => cfg.providers.brightdata.rate_limit
  | _ => 60

/-- The error returned by `NonZeroU32::new(rate_limit).ok_or_else(..)` on a zero quota:
    the message is the source text without punctuation modelled as a constructor. -/
inductive RateLimitError where
  | zeroQuota
deriving DecidableEq, Repr

/-- `RateLimiterManager::get_or_create_limiter`: disabled yields a fresh permissive
    limiter (quota `u32::MAX` per minute); otherwise return the stored limiter, or
    construct one from the configured quota of that provider, failing on a zero quota. -/
def RateLimiterManager.get_or_create_limiter (m : RateLimiterManager) (cfg : Config)
    (provider : String) : Except RateLimitError (ProviderRateLimiter × RateLimiterManager) :=
  if !m.enabled then .ok ({ quota_per_minute := 4294967295 }, m)
  else
    match assocGet m.limiters provider with
    | some lim => .ok (lim, m)
    | none =>
        let rate_limit := get_provider_rate_limit cfg provider
        if rate_limit = 0 then .error .zeroQuota
        else
          let lim : ProviderRateLimiter := { quota_per_minute := rate_limit }
          .ok (lim, { m with limiters := m.limiters ++ [(provider, lim)] })

/-! ## Client dispatcher (src/client.rs) -/

/-- client.rs `SearchRequest`. -/
structure SearchRequest where
  query : String
  limit : Option Nat
  include_domains : Option (List String)
  exclude_domains : Option (List String)
  preferred_provider : Option String
deriving DecidableEq, Repr

/-- `SearchRequest::into_search_params`. -/
def SearchRequest.into_search_params (r : SearchRequest) : BaseSearchParams where
  query := r.query
  limit := r.limit
  include_domains := r.include_domains
  exclude_domains := r.exclude_domains

/-- client.rs `SearchResponse`. Its fields are `results`, `providers_used` and `query`;
    it carries no cache-hit flag. -/
structure SearchResponse where
  results : List SearchResult
  providers_used : List String
  query : String
deriving DecidableEq, Repr

/-- A provider adapter behind `Box<dyn SearchProvider>`, modelled by its outcome for
    the dispatched request (each dispatch passes the same cloned params to every
    candidate, so one outcome per provider suffices). -/
abbrev ProviderOutcome := Except ProviderError (List SearchResult)

deriving instance DecidableEq for Except

/-- client.rs `OmnisearchClient`: the provider `HashMap`, with list order modelling the
    unspecified map iteration order. -/
structure OmnisearchClient where
  providers : List (String × ProviderOutcome)
deriving DecidableEq, Repr

/-- The fixed priority order hard-coded in `OmnisearchClient::search` (line 132). -/
def provider_order : List String :=
  ["tavily", "google", "duckduckgo", "reddit", "exa", "brave"]

/-- The terminal error built when the fallback loop ends with no recorded error. -/
def noProvidersError : ProviderError where
  error_type := .ProviderError
  message := "No providers available for search"
  provider := "client"
  source := none

/-- The error for a caller-named provider that is not registered (search path). -/
def invalidProviderError (name : String) : ProviderError where
  error_type := .InvalidInput
  message := "Provider not available: " ++ name
  provider := "client"
  source := none

/-- The fallback loop of `OmnisearchClient::search` (lines 131-151), instrumented with
    the ordered list of providers whose adapters were actually invoked (second
    component). Unregistered candidates are skipped; the first success returns with
    `providers_used` equal to that single provider; a failure is recorded as
    `last_error` and the loop continues. -/
def tryProvidersInOrder (client : OmnisearchClient) (query : String) :
    List String → Option ProviderError → (Except ProviderError SearchResponse) × List String
  | [], last_error =>
      (match last_error with
       | some e => .error e
       | none => .error noProvidersError,
       [])
  | p :: rest, last_error =>
      match assocGet client.providers p with
      | none => tryProvidersInOrder client query rest last_error
      | some (.ok results) =>
          (.ok { results := results, providers_used := [p], query := query }, [p])
      | some (.error e) =>
          let r := tryProvidersInOrder client query rest (some e)
          (r.fst, p :: r.snd)

/-- `OmnisearchClient::search` (lines 107-162), instrumented with the ordered list of
    invoked providers. A named preferred provider is used exclusively (its error
    propagates); an unknown preferred provider is an immediate invalid-input error;
    otherwise the fixed priority order is tried. -/
def OmnisearchClient.search (client : OmnisearchClient) (req : SearchRequest) :
    (Except ProviderError SearchResponse) × List String :=
  match req.preferred_provider with
  | some provider_name =>
      match assocGet client.providers provider_name with
      | some (.ok results) =>
          (.ok { results := results, providers_used := [provider_name], query := req.query },
           [provider_name])
      | some (.error e) => (.error e, [provider_name])
      | none => (.error (invalidProviderError provider_name), [])
  | none => tryProvidersInOrder client req.query provider_order none

/-- The terminal error of `multi_search` when every candidate failed. -/
def allFailedError : ProviderError where
  error_type := .ProviderError
  message := "All provider searches failed"
  provider := "client"
  source := none

/-- The error for a caller-named provider that is not registered (multi_search path). -/
def multiPreferredError (name : String) : ProviderError where
  error_type := .InvalidInput
  message := "Preferred provider not available: " ++ name
  provider := "client"
  source := none

/-- The sequential loop of `OmnisearchClient::multi_search` (lines 198-223),
    instrumented with the invoked providers. Per-candidate errors are discarded
    (`Err(_) => continue`); exhaustion yields the generic all-failed error. -/
def multiTry (client : OmnisearchClient) (query : String) :
    List String → (Except ProviderError SearchResponse) × List String
  | [] => (.error allFailedError, [])
  | p :: rest =>
      match assocGet client.providers p with
      | none => multiTry client query rest
      | some (.ok results) =>
          (.ok { results := results, providers_used := [p], query := query }, [p])
      | some (.error _) =>
          let r := multiTry client query rest
          (r.fst, p :: r.snd)

/-- `OmnisearchClient::multi_search` (lines 168-224): a registered preferred provider is
    the single candidate; otherwise the candidates are the first `max_providers` keys in
    the iteration order of the provider map. -/
def OmnisearchClient.multi_search (client : OmnisearchClient) (req : SearchRequest)
    (max_providers : Nat) : (Except ProviderError SearchResponse) × List String :=
  match req.preferred_provider with
  | some preferred =>
      if (assocGet client.providers preferred).isSome then
        multiTry client req.query [preferred]
      else
        (.error (multiPreferredError preferred), [])
  | none =>
      multiTry client req.query ((client.providers.map Prod.fst).take max_providers)

/-! ## Definitions for the claims -/

/-- Runs a sequence of calls whose wrapped operations all fail, one `(start, finish)`
    timestamp pair per call. -/
def CircuitBreaker.runFailingCalls (b : CircuitBreaker) : List (Nat × Nat) → CircuitBreaker
  | [] => b
  | t :: ts => ((b.call t.fst t.snd false).snd).runFailingCalls ts

/-- Claim C2 as stated: whenever a call finds the breaker HalfOpen, or Open with the
    timeout elapsed (so that the call itself makes it HalfOpen), the call is admitted to
    invoke the underlying operation exactly when the number of trial calls already
    admitted in this HalfOpen episode is below `half_open_max_calls` — with the
    Open-to-HalfOpen transition call itself counting toward that limit (its episode
    count is zero, so it must be admitted only when `0 < half_open_max_calls`). -/
def HalfOpenExactAdmissionProp : Prop :=
  ∀ (b : CircuitBreaker) (now0 now1 : Nat) (op : Bool),
    ((b.state = .Open ∧ b.timeout_duration ≤ now0 - b.state_changed_at) ∨
      b.state = .HalfOpen) →
    ((b.call now0 now1 op).fst.invoked = true ↔
      (if b.state = .HalfOpen then b.half_open_calls else 0) < b.half_open_max_calls)

/-- A breaker with `half_open_max_calls = 0`, opened by one failing call
    (failure_threshold 1, timeout 5, constructed at time 0). -/
def cbC2open : CircuitBreaker := ((CircuitBreaker.new 1 5 0 0).call 0 0 false).snd

/-- Claim C4 as stated: from a fresh breaker with `failure_threshold = N`, any N
    consecutive calls whose operations fail leave the breaker Open, and a further call
    made before the timeout has elapsed is rejected with a breaker-open error, without
    invoking its operation. -/
def BreakerThresholdProp : Prop :=
  ∀ (N T M created : Nat) (ts : List (Nat × Nat)) (now0 now1 : Nat) (op : Bool),
    ts.length = N →
    ((CircuitBreaker.new N T M created).runFailingCalls ts).state = .Open ∧
    (now0 - ((CircuitBreaker.new N T M created).runFailingCalls ts).state_changed_at < T →
      ((CircuitBreaker.new N T M created).runFailingCalls ts).call now0 now1 op =
        (.rejectedOpen, (CircuitBreaker.new N T M created).runFailingCalls ts))

/-- A breaker opened by one failing call (failure_threshold 1, timeout 5,
    half_open_max_calls 1, constructed at time 0). -/
def cbC5open : CircuitBreaker := ((CircuitBreaker.new 1 5 1 0).call 0 0 false).snd

/-- The default circuit-breaker configuration of the source (config/mod.rs `Default`). -/
def cbCfgDefault : CircuitBreakerConfig where
  enabled := true
  failure_threshold := 5
  timeout_seconds := 60
  half_open_max_calls := 3

/-- A manager registry after three failing `call`s for provider tavily: the stored
    breaker has accumulated `failure_count = 3`. -/
def mgrC3 : CircuitBreakerManager :=
  ((((CircuitBreakerManager.new cbCfgDefault).call "tavily" 0 0 false).snd.call
      "tavily" 1 1 false).snd.call "tavily" 2 2 false).snd

/-- Claim C8 as stated: on the memory cache, `set(k, v, t)` immediately followed by
    `get(k)` returns `v`; `delete(k)` followed by `get(k)` returns none; and once the
    per-call TTL `t` has elapsed since the set, `get(k)` returns none — the per-call
    `t` governing the expiry of the entry. -/
def MemoryCacheTtlProp : Prop :=
  ∀ (c : MemoryCache) (k : String) (v : List SearchResult) (t now0 now1 now2 : Nat),
    ((c.set k v t now0).get k now0 = some v) ∧
    (((c.set k v t now0).delete k).get k now1 = none) ∧
    (now0 + t ≤ now2 → (c.set k v t now0).get k now2 = none)

/-- A sample cached search result. -/
def rC8 : SearchResult where
  title := "cached"
  url := "https://example.com/cached"
  snippet := "cached snippet"
  score := none
  source_provider := "tavily"

/-- A cache configuration with a 100-unit global TTL. -/
def cacheCfgC8 : CacheConfig where
  enabled := true
  ttl_seconds := 100
  max_entries := 10000

/-- Claim C9 as stated: with rate limiting enabled and a configured provider quota
    equal to zero, the registry fails fast at creation time with a configuration error
    rather than succeeding at creation and only erroring at first use. Registry
    creation (`RateLimiterManager::new`) is infallible in the source, so the claim
    requires the first use of the created registry for that provider not to surface the
    zero-quota configuration error (it would have been raised at creation). -/
def FailFastZeroQuotaProp : Prop :=
  ∀ (cfg : Config) (p : String),
    cfg.rate_limiting.enabled = true →
    get_provider_rate_limit cfg p = 0 →
    ∃ r, (RateLimiterManager.new cfg).get_or_create_limiter cfg p = .ok r

/-- A provider entry with a 100-per-minute quota. -/
def pcOk : ProviderConfig where
  enabled := true
  rate_limit := 100
  timeout_seconds := 30

/-- A configuration whose tavily quota is zero (a reachable misconfiguration: the
    source validates neither quotas nor breaker thresholds in `validate_config`). -/
def cfgC9 : Config where
  cache := cacheCfgC8
  rate_limiting := { enabled := true, requests_per_minute := 60, burst_size := 10 }
  circuit_breaker := cbCfgDefault
  providers :=
    { tavily := { enabled := true, rate_limit := 0, timeout_seconds := 30 }
      google := pcOk
      reddit := pcOk
      duckduckgo := pcOk
      baidu := pcOk
      brightdata := pcOk
      exa := pcOk
      brave := pcOk
      kagi := pcOk
      perplexity := pcOk
      jina := pcOk
      firecrawl := pcOk }

/-- Modelled from the spec: RequestFingerprint, "derived deterministically from
    (provider, normalized_query, effective_limit)". The source dispatcher
    (client.rs `search`) computes no fingerprint and performs no cache lookup at all;
    this definition supplies the fingerprint the spec prescribes so that the
    cache-first-dispatch claim can be stated against the source dispatcher. -/
def requestFingerprint (req : SearchRequest) : String :=
  (match req.preferred_provider with
   | some p => p
   | none => "any") ++ ":" ++ req.query ++ ":" ++
  (match req.limit with
   | some n => toString n
   | none => "none")

/-- Claim C1 as stated: on every dispatch whose request fingerprint hits the cache
    store, the dispatcher returns the cached results immediately — no provider is
    invoked (`providers_used` names the providers actually invoked) and the cached
    value is the result. -/
def CacheFirstDispatchProp : Prop :=
  ∀ (cm : CacheManager) (client : OmnisearchClient) (req : SearchRequest) (now : Nat)
    (v : List SearchResult),
    cm.get (requestFingerprint req) now = .ok (some v) →
    (client.search req).fst = .ok { results := v, providers_used := [], query := req.query } ∧
    (client.search req).snd = []

/-- A result that sits in the cache. -/
def cachedC1 : SearchResult where
  title := "from-cache"
  url := "https://example.com/cached1"
  snippet := "cached"
  score := none
  source_provider := "tavily"

/-- A distinct result produced by the live tavily adapter. -/
def freshC1 : SearchResult where
  title := "fresh"
  url := "https://example.com/fresh1"
  snippet := "fresh"
  score := none
  source_provider := "tavily"

/-- A cache backend holding `[cachedC1]` under every key. -/
def backendC1 : CacheBackend where
  get_fn := fun _ _ => .ok (some [cachedC1])
  set_fn := fun _ _ _ _ => .ok ()
  delete_fn := fun _ => .ok ()
  clear_fn := .ok ()
  size_fn := .ok 1

/-- An enabled cache manager over `backendC1`. -/
def cmC1 : CacheManager where
  provider := backendC1
  enabled := true

/-- A plain request with no preferred provider. -/
def reqC1 : SearchRequest where
  query := "rust"
  limit := some 5
  include_domains := none
  exclude_domains := none
  preferred_provider := none

/-- The same request with tavily as the caller-named provider. -/
def reqC1pref : SearchRequest where
  query := "rust"
  limit := some 5
  include_domains := none
  exclude_domains := none
  preferred_provider := some "tavily"

/-- A client with one registered, succeeding provider. -/
def clientC1 : OmnisearchClient where
  providers := [("tavily", Except.ok [freshC1])]

/-- The last observed error of the dispatcher over a candidate list: the error of the
    last registered-and-failing candidate, starting from `acc`. -/
def lastTriedError (client : OmnisearchClient) :
    List String → Option ProviderError → Option ProviderError
  | [], acc => acc
  | p :: rest, acc =>
      match assocGet client.providers p with
      | some (.error e) => lastTriedError client rest (some e)
      | _ => lastTriedError client rest acc

/-- A failing duckduckgo error for the C6 witness. -/
def eC6 : ProviderError where
  error_type := .ApiError
  message := "upstream failure"
  provider := "tavily"
  source := none

/-- A google result for the C6 witness. -/
def rC6 : SearchResult where
  title := "hit"
  url := "https://example.com/hit"
  snippet := "snippet"
  score := none
  source_provider := "google"

/-- A client whose first priority candidate (tavily) fails and whose second (google)
    succeeds; later priority candidates are unregistered. -/
def clientC6 : OmnisearchClient where
  providers := [("tavily", Except.error eC6), ("google", Except.ok [rC6])]

/-- A plain request with no preferred provider (C6 instance). -/
def reqC6 : SearchRequest where
  query := "q6"
  limit := none
  include_domains := none
  exclude_domains := none
  preferred_provider := none

/-- Claim C7 as stated: the candidate sequences tried by `search` and `multi_search`
    are determined solely by the priority order (or the named provider) and the set of
    registered providers: two clients registering the same providers (the same
    key-adapter pairs, as a multiset — iteration order free) try candidates in the same
    order for the same request. -/
def OrderDeterminedProp : Prop :=
  ∀ (c1 c2 : OmnisearchClient) (req : SearchRequest) (m : Nat),
    c1.providers.Perm c2.providers →
    (c1.search req).snd = (c2.search req).snd ∧
    (c1.multi_search req m).snd = (c2.multi_search req m).snd

/-- The candidates a sequential first-success loop invokes from a list: unregistered
    names are skipped, a failure continues, the first success stops the walk. -/
def takeUntilFirstOk (client : OmnisearchClient) : List String → List String
  | [] => []
  | p :: rest =>
      match assocGet client.providers p with
      | none => takeUntilFirstOk client rest
      | some (.ok _) => [p]
      | some (.error _) => p :: takeUntilFirstOk client rest

/-- A tavily result for the C7 instances. -/
def rC7tav : SearchResult where
  title := "tav"
  url := "https://example.com/tav"
  snippet := "s"
  score := none
  source_provider := "tavily"

/-- A google result for the C7 instances. -/
def rC7goo : SearchResult where
  title := "goo"
  url := "https://example.com/goo"
  snippet := "s"
  score := none
  source_provider := "google"

/-- Two clients registering exactly the same providers with the same adapters, whose
    provider maps iterate in opposite orders. -/
def cC7a : OmnisearchClient where
  providers := [("tavily", Except.ok [rC7tav]), ("google", Except.ok [rC7goo])]

/-- See `cC7a`: same registered providers, reversed iteration order. -/
def cC7b : OmnisearchClient where
  providers := [("google", Except.ok [rC7goo]), ("tavily", Except.ok [rC7tav])]

/-- A plain request with no preferred provider (C7 instance). -/
def reqC7 : SearchRequest where
  query := "q7"
  limit := none
  include_domains := none
  exclude_domains := none
  preferred_provider := none

/-! ## General circuit breaker lemmas -/

theorem closed_failing_call (b : CircuitBreaker) (hb : b.state = .Closed) (t0 t1 : Nat) :
    (b.call t0 t1 false).snd =
      if b.failure_threshold ≤ b.failure_count + 1 then
        { b with failure_count := b.failure_count + 1, last_failure_time := some t1,
                 state := .Open, state_changed_at := t1 }
      else
        { b with failure_count := b.failure_count + 1, last_failure_time := some t1 } := by
  simp only [CircuitBreaker.call, CircuitBreaker.admission, hb]
  simp only [Bool.false_eq_true, if_false, CircuitBreaker.on_failure, hb]

theorem open_call_rejected (b : CircuitBreaker) (now0 now1 : Nat) (op : Bool)
    (hb : b.state = .Open) (helapsed : now0 - b.state_changed_at < b.timeout_duration) :
    b.call now0 now1 op = (.rejectedOpen, b) := by
  have hreset : b.should_attempt_reset now0 = false := by
    simp [CircuitBreaker.should_attempt_reset, hb]
    omega
  simp [CircuitBreaker.call, CircuitBreaker.admission, hb, hreset]

theorem open_call_elapsed (b : CircuitBreaker) (now0 now1 : Nat) (op : Bool)
    (hb : b.state = .Open) (helapsed : b.timeout_duration ≤ now0 - b.state_changed_at) :
    b.admission now0 =
      (.allow, { b with state := .HalfOpen, state_changed_at := now0, half_open_calls := 0 }) ∧
    b.call now0 now1 op =
      (if op then .opSucceeded else .opFailed,
       if op then
         ({ b with state := .HalfOpen, state_changed_at := now0,
                   half_open_calls := 0 } : CircuitBreaker).on_success now1
       else
         ({ b with state := .HalfOpen, state_changed_at := now0,
                   half_open_calls := 0 } : CircuitBreaker).on_failure now1) := by
  have hreset : b.should_attempt_reset now0 = true := by
    simp [CircuitBreaker.should_attempt_reset, hb, helapsed]
  constructor
  · simp [CircuitBreaker.admission, hb, hreset]
  · simp [CircuitBreaker.call, CircuitBreaker.admission, hb, hreset]
    split <;> rfl

theorem call_preserves_timeout_duration (b : CircuitBreaker) (now0 now1 : Nat) (op : Bool) :
    (b.call now0 now1 op).snd.timeout_duration = b.timeout_duration := by
  cases hb : b.state <;> cases op <;>
    simp [CircuitBreaker.call, CircuitBreaker.admission, CircuitBreaker.should_attempt_reset,
          CircuitBreaker.on_success, CircuitBreaker.on_failure, hb] <;>
    split_ifs <;> simp_all

theorem runFailingCalls_timeout_duration :
    ∀ (ts : List (Nat × Nat)) (b : CircuitBreaker),
      (b.runFailingCalls ts).timeout_duration = b.timeout_duration := by
  intro ts
  induction ts with
  | nil => intro b; rfl
  | cons t ts ih =>
      intro b
      rw [CircuitBreaker.runFailingCalls, ih, call_preserves_timeout_duration]

theorem runFailingCalls_opens :
    ∀ (ts : List (Nat × Nat)) (b : CircuitBreaker),
      b.state = .Closed →
      b.failure_count + ts.length = b.failure_threshold →
      ts ≠ [] →
      (b.runFailingCalls ts).state = .Open := by
  intro ts
  induction ts with
  | nil => intro b _ _ hne; exact absurd rfl hne
  | cons t ts ih =>
      intro b hb hcount _
      rw [CircuitBreaker.runFailingCalls, closed_failing_call b hb]
      cases ts with
      | nil =>
          have hth : b.failure_threshold ≤ b.failure_count + 1 := by
            simp at hcount; omega
          rw [if_pos hth]
          rfl
      | cons t2 ts2 =>
          have hth : ¬ b.failure_threshold ≤ b.failure_count + 1 := by
            simp at hcount; omega
          rw [if_neg hth]
          exact ih _ hb (by simp at hcount ⊢; omega) (by simp)

/-! ## Claim C2: exact half-open admission accounting -/

/-- Claim C2 is false on the code: with `half_open_max_calls = 0` the call that finds
    the breaker Open with the timeout elapsed is still admitted and invokes its
    operation — the Open-to-HalfOpen transition call is not counted against the limit. -/
theorem circuit_C2_counterexample : ¬ HalfOpenExactAdmissionProp := by
  intro h
  have h2 := h cbC2open 10 10 true (Or.inl (by constructor <;> decide))
  exact absurd (h2.mp (by decide)) (by decide)

/-- Claim C2 (amended): calls that find the breaker already HalfOpen are admission-
    checked exactly — rejected without invoking the operation and without any state
    change once `half_open_max_calls` trials are counted, admitted (and counted) below
    the limit; but the call that itself triggers the Open-to-HalfOpen transition is
    admitted unconditionally, without counting toward the limit — even when
    `half_open_max_calls = 0`. Every admitted call moves the breaker out of HalfOpen
    when its operation completes, so under the serialized execution of the source at most
    one operation is invoked per HalfOpen episode. -/
theorem circuit_C2_amended :
    ∀ (b : CircuitBreaker) (now0 now1 : Nat) (op : Bool),
    (b.state = .HalfOpen → b.half_open_max_calls ≤ b.half_open_calls →
      b.call now0 now1 op = (.rejectedHalfOpenLimit, b)) ∧
    (b.state = .HalfOpen → b.half_open_calls < b.half_open_max_calls →
      (b.call now0 now1 op).fst.invoked = true ∧ (b.call now0 now1 op).snd.state ≠ .HalfOpen) ∧
    (b.state = .Open → b.timeout_duration ≤ now0 - b.state_changed_at →
      (b.call now0 now1 op).fst.invoked = true ∧
      (b.call now0 now1 op).snd.half_open_calls = 0 ∧
      (b.call now0 now1 op).snd.state ≠ .HalfOpen) := by
  intro b now0 now1 op
  refine ⟨fun hb hlim => ?_, fun hb hlim => ?_, fun hb helapsed => ?_⟩
  · simp [CircuitBreaker.call, CircuitBreaker.admission, hb, hlim]
  · have hadm : b.admission now0 =
        (.allow, { b with half_open_calls := b.half_open_calls + 1 }) := by
      simp [CircuitBreaker.admission, hb]
      omega
    cases op <;>
      simp [CircuitBreaker.call, hadm, CBResult.invoked,
            CircuitBreaker.on_success, CircuitBreaker.on_failure, hb]
  · have h2 := (open_call_elapsed b now0 now1 op hb helapsed).2
    cases op <;>
      simp [h2, CBResult.invoked, CircuitBreaker.on_success, CircuitBreaker.on_failure]

/-- Witness for `circuit_C2_amended` at the concrete opened breaker `cbC2open`. -/
theorem circuit_C2_amended_witness :
    (cbC2open.call 10 10 true).fst.invoked = true ∧
    (cbC2open.call 10 10 true).snd.half_open_calls = 0 ∧
    (cbC2open.call 10 10 true).snd.state ≠ .HalfOpen :=
  (circuit_C2_amended cbC2open 10 10 true).2.2 (by decide) (by decide)

/-! ## Claim C4: failure threshold opens the breaker -/

/-- Claim C4 is false at the configuration `failure_threshold = 0`: after zero failing
    calls the fresh breaker is Closed, not Open (and its next call is admitted). -/
theorem circuit_C4_counterexample : ¬ BreakerThresholdProp := by
  intro h
  exact absurd (h 0 5 1 0 [] 0 0 true rfl).1 (by decide)

/-- Claim C4 (amended with `1 ≤ N`): for a breaker with `failure_threshold = N ≥ 1`
    starting Closed with `failure_count = 0`, after exactly N consecutive calls whose
    operations fail the state is Open, and the next call made before
    `timeout_duration` has elapsed since `state_changed_at` is rejected with a
    breaker-open error — the operation is not invoked and the breaker is unchanged. -/
theorem circuit_C4_amended :
    ∀ (N T M created : Nat) (ts : List (Nat × Nat)) (now0 now1 : Nat) (op : Bool),
    1 ≤ N → ts.length = N →
    ((CircuitBreaker.new N T M created).runFailingCalls ts).state = .Open ∧
    (now0 - ((CircuitBreaker.new N T M created).runFailingCalls ts).state_changed_at < T →
      ((CircuitBreaker.new N T M created).runFailingCalls ts).call now0 now1 op =
        (.rejectedOpen, (CircuitBreaker.new N T M created).runFailingCalls ts)) := by
  intro N T M created ts now0 now1 op hN hlen
  have hopen : ((CircuitBreaker.new N T M created).runFailingCalls ts).state = .Open := by
    apply runFailingCalls_opens ts _ rfl (by simp [CircuitBreaker.new, hlen])
    intro hnil
    rw [hnil] at hlen
    simp at hlen
    omega
  refine ⟨hopen, fun helapsed => ?_⟩
  have htd : ((CircuitBreaker.new N T M created).runFailingCalls ts).timeout_duration = T := by
    rw [runFailingCalls_timeout_duration]
    rfl
  apply open_call_rejected _ now0 now1 op hopen
  rw [htd]
  exact helapsed

/-- Witness for `circuit_C4_amended`: threshold 2, two failing calls at times 0 and 1,
    a third call at time 3 (timeout 5 not yet elapsed) is rejected unchanged. -/
theorem circuit_C4_amended_witness :
    ((CircuitBreaker.new 2 5 1 0).runFailingCalls [(0, 0), (1, 1)]).state = .Open ∧
    ((CircuitBreaker.new 2 5 1 0).runFailingCalls [(0, 0), (1, 1)]).call 3 3 true =
      (.rejectedOpen, (CircuitBreaker.new 2 5 1 0).runFailingCalls [(0, 0), (1, 1)]) := by
  have h := circuit_C4_amended 2 5 1 0 [(0, 0), (1, 1)] 3 3 true (by decide) rfl
  exact ⟨h.1, h.2 (by decide)⟩

/-! ## Claim C5: open-state timeout and recovery -/

/-- Claim C5: for a breaker in the Open state, (i) a call before `timeout_duration` has
    elapsed since `state_changed_at` is rejected without invoking its operation and
    leaves the breaker unchanged; (ii) a call once the timeout has elapsed transitions
    the breaker to HalfOpen before the operation is attempted (the admission phase
    already yields a HalfOpen breaker) and is admitted; and (iii) if the operation of that admitted
    call succeeds the breaker ends Closed with `failure_count = 0`. -/
theorem circuit_C5 :
    ∀ (b : CircuitBreaker) (now0 now1 : Nat) (op : Bool),
    b.state = .Open →
    (now0 - b.state_changed_at < b.timeout_duration →
      b.call now0 now1 op = (.rejectedOpen, b)) ∧
    (b.timeout_duration ≤ now0 - b.state_changed_at →
      (b.admission now0).fst = .allow ∧
      (b.admission now0).snd.state = .HalfOpen ∧
      (b.call now0 now1 op).fst.invoked = true ∧
      (op = true →
        (b.call now0 now1 op).snd.state = .Closed ∧
        (b.call now0 now1 op).snd.failure_count = 0)) := by
  intro b now0 now1 op hb
  constructor
  · intro helapsed
    exact open_call_rejected b now0 now1 op hb helapsed
  · intro helapsed
    have h := open_call_elapsed b now0 now1 op hb helapsed
    refine ⟨by simp [h.1], by simp [h.1], ?_, ?_⟩
    · cases op <;> simp [h.2, CBResult.invoked]
    · intro hop
      subst hop
      simp [h.2, CircuitBreaker.on_success]

/-- Witness for `circuit_C5` at a breaker opened by one failing call (threshold 1,
    timeout 5): a call at time 2 is rejected unchanged; a successful call at time 10
    is admitted through a HalfOpen transition and closes the breaker with zero
    failures. -/
theorem circuit_C5_witness :
    (cbC5open.call 2 2 true = (.rejectedOpen, cbC5open)) ∧
    (cbC5open.admission 10).fst = .allow ∧
    (cbC5open.admission 10).snd.state = .HalfOpen ∧
    (cbC5open.call 10 10 true).fst.invoked = true ∧
    (cbC5open.call 10 10 true).snd.state = .Closed ∧
    (cbC5open.call 10 10 true).snd.failure_count = 0 := by
  have h2 := circuit_C5 cbC5open 2 2 true (by decide)
  have h10 := circuit_C5 cbC5open 10 10 true (by decide)
  have h10e := h10.2 (by decide)
  exact ⟨h2.1 (by decide), h10e.1, h10e.2.1, h10e.2.2.1,
         (h10e.2.2.2 rfl).1, (h10e.2.2.2 rfl).2⟩

/-! ## Claim C3: the registry get-or-create discards stored breaker state -/

/-- Claim C3: successive manager `call`s for one provider do accumulate failures in the
    stored breaker (here `failure_count = 3` after three failures), but
    `get_or_create_breaker` — contrary to the claim and to the stated intent of the source —
    returns a freshly fabricated breaker (Closed, `failure_count = 0`) instead of the
    stored state object, silently discarding the accumulated state. -/
theorem circuit_C3_bug :
    (assocGet mgrC3.breakers "tavily").map CircuitBreaker.failure_count = some 3 ∧
    (mgrC3.get_or_create_breaker "tavily" 99).snd.failure_count = 0 ∧
    (mgrC3.get_or_create_breaker "tavily" 99).snd.state = .Closed ∧
    some (mgrC3.get_or_create_breaker "tavily" 99).snd ≠ assocGet mgrC3.breakers "tavily" := by
  decide

/-! ## Association list lemmas -/

theorem assocGet_map_overwrite {β : Type} (k : String) (v : β) :
    ∀ (l : List (String × β)),
      l.any (fun kv => kv.fst == k) = true →
      assocGet (l.map (fun kv => if kv.fst == k then (k, v) else kv)) k = some v := by
  intro l
  induction l with
  | nil => intro h; simp at h
  | cons kv rest ih =>
      intro h
      cases hk : kv.fst == k with
      | true =>
          simp only [List.map_cons]
          rw [if_pos hk]
          simp only [assocGet]
          rw [if_pos (by simp)]
      | false =>
          simp only [List.map_cons]
          rw [if_neg (by simp [hk])]
          simp only [assocGet]
          rw [if_neg (by simp [hk])]
          simp only [List.any_cons, hk, Bool.false_or] at h
          exact ih h

theorem assocGet_append_new {β : Type} (k : String) (v : β) :
    ∀ (l : List (String × β)),
      l.any (fun kv => kv.fst == k) = false →
      assocGet (l ++ [(k, v)]) k = some v := by
  intro l
  induction l with
  | nil =>
      intro _
      simp only [List.nil_append, assocGet]
      rw [if_pos (by simp)]
  | cons kv rest ih =>
      intro h
      simp only [List.any_cons, Bool.or_eq_false_iff] at h
      simp only [List.cons_append, assocGet]
      rw [if_neg (by simp [h.1])]
      exact ih h.2

theorem assocGet_assocInsert_self {β : Type} (l : List (String × β)) (k : String) (v : β) :
    assocGet (assocInsert l k v) k = some v := by
  cases h : l.any (fun kv => kv.fst == k) with
  | true =>
      rw [assocInsert, if_pos h]
      exact assocGet_map_overwrite k v l h
  | false =>
      rw [assocInsert, if_neg (by simp [h])]
      exact assocGet_append_new k v l h

theorem assocGet_filter_ne {β : Type} (k : String) :
    ∀ (l : List (String × β)),
      assocGet (l.filter (fun kv => kv.fst != k)) k = none := by
  intro l
  induction l with
  | nil => rfl
  | cons kv rest ih =>
      cases hk : kv.fst == k with
      | true =>
          rw [List.filter_cons, if_neg (by simp [bne, hk])]
          exact ih
      | false =>
          rw [List.filter_cons, if_pos (by simp [bne, hk])]
          simp only [assocGet]
          rw [if_neg (by simp [hk])]
          exact ih

/-! ## Claim C8: cache round-trip and TTL -/

/-- Claim C8 is false on the code: the memory cache ignores the per-call TTL. With a
    builder-level TTL of 100, an entry set at time 0 with per-call TTL 1 is still
    returned at time 50, long after the per-call TTL elapsed. -/
theorem cache_C8_counterexample : ¬ MemoryCacheTtlProp := by
  intro h
  have h3 := (h (MemoryCache.new cacheCfgC8) "k" [rC8] 1 0 0 50).2.2 (by decide)
  exact absurd h3 (by decide)

/-- Claim C8 (amended): on the memory cache, expiry is governed by the cache-wide
    `time_to_live` fixed at construction, the per-call TTL argument being ignored:
    `set(k, v, t)` immediately followed by `get(k)` returns `v` provided the
    construction-time TTL is positive; `delete(k)` followed by `get(k)` returns none;
    and once the construction-time TTL has elapsed since the set, `get(k)` returns
    none even without an explicit delete. -/
theorem cache_C8_amended :
    ∀ (c : MemoryCache) (k : String) (v : List SearchResult) (t now0 now1 now2 : Nat),
    (0 < c.time_to_live → (c.set k v t now0).get k now0 = some v) ∧
    (((c.set k v t now0).delete k).get k now1 = none) ∧
    (now0 + c.time_to_live ≤ now2 → (c.set k v t now0).get k now2 = none) := by
  intro c k v t now0 now1 now2
  have hins := assocGet_assocInsert_self c.entries k
    ({ value := v, inserted_at := now0 } : MemoryCacheEntry)
  refine ⟨fun httl => ?_, ?_, fun hexp => ?_⟩
  · simp [MemoryCache.get, MemoryCache.set, hins, MemoryCacheEntry.expired]
    omega
  · simp [MemoryCache.get, MemoryCache.delete, MemoryCache.set, assocGet_filter_ne]
  · simp [MemoryCache.get, MemoryCache.set, hins, MemoryCacheEntry.expired, hexp]

/-- Witness for `cache_C8_amended` on a fresh cache with TTL 100: a set at time 0 is
    readable at time 0, gone after delete, and gone at time 100. -/
theorem cache_C8_amended_witness :
    ((MemoryCache.new cacheCfgC8).set "k" [rC8] 7 0).get "k" 0 = some [rC8] ∧
    (((MemoryCache.new cacheCfgC8).set "k" [rC8] 7 0).delete "k").get "k" 3 = none ∧
    ((MemoryCache.new cacheCfgC8).set "k" [rC8] 7 0).get "k" 100 = none := by
  have h := cache_C8_amended (MemoryCache.new cacheCfgC8) "k" [rC8] 7 0 3 100
  exact ⟨h.1 (by decide), h.2.1, h.2.2 (by decide)⟩

/-! ## Claim C10: the disabled cache manager is a total pass-through -/

/-- Claim C10: a cache manager with caching disabled answers every operation without
    consulting its backend (the backend is universally quantified, including
    always-failing ones): `get` is `Ok(None)`, `set`, `delete` and `clear` are
    `Ok(())`, and `size` is `Ok(0)` — no backend error can surface. -/
theorem cache_C10 :
    ∀ (backend : CacheBackend) (cfg : CacheConfig) (k : String) (v : List SearchResult)
      (now : Nat),
    CacheManager.get { provider := backend, enabled := false } k now = .ok none ∧
    CacheManager.set { provider := backend, enabled := false } cfg k v now = .ok () ∧
    CacheManager.delete { provider := backend, enabled := false } k = .ok () ∧
    CacheManager.clear { provider := backend, enabled := false } = .ok () ∧
    CacheManager.size { provider := backend, enabled := false } = .ok 0 := by
  intro backend cfg k v now
  exact ⟨rfl, rfl, rfl, rfl, rfl⟩

/-! ## Claim C9: zero quota and registry creation -/

/-- Claim C9 is false on the code: with the tavily quota configured to zero, registry
    creation succeeds (it is infallible and performs no validation) and the
    configuration error surfaces only at the first `get_or_create_limiter` for that
    provider. -/
theorem rate_C9_counterexample : ¬ FailFastZeroQuotaProp := by
  intro h
  obtain ⟨r, hr⟩ := h cfgC9 "tavily" rfl (by decide)
  rw [show (RateLimiterManager.new cfgC9).get_or_create_limiter cfgC9 "tavily" =
        .error .zeroQuota from by decide] at hr
  exact Except.noConfusion hr

/-- Claim C9 (amended): registry creation never fails and validates nothing (the fresh
    registry is empty whatever the quotas); a zero configured quota for a provider is
    instead rejected at the first `get_or_create_limiter` for that provider (with rate
    limiting enabled), which returns the configuration error and stores no limiter —
    the guard is not silently disabled. -/
theorem rate_C9_amended :
    ∀ (cfg : Config) (p : String),
    cfg.rate_limiting.enabled = true →
    get_provider_rate_limit cfg p = 0 →
    (RateLimiterManager.new cfg).limiters = [] ∧
    (RateLimiterManager.new cfg).get_or_create_limiter cfg p = .error .zeroQuota := by
  intro cfg p he hq
  refine ⟨rfl, ?_⟩
  simp [RateLimiterManager.get_or_create_limiter, RateLimiterManager.new, he, assocGet, hq]

/-- Witness for `rate_C9_amended` at the zero-tavily-quota configuration. -/
theorem rate_C9_amended_witness :
    (RateLimiterManager.new cfgC9).limiters = [] ∧
    (RateLimiterManager.new cfgC9).get_or_create_limiter cfgC9 "tavily" =
      .error .zeroQuota :=
  rate_C9_amended cfgC9 "tavily" rfl (by decide)

/-! ## Dispatcher lemmas -/

theorem tryOrder_first_ok (client : OmnisearchClient) (query : String) :
    ∀ (pre : List String) (p : String) (post : List String) (v : List SearchResult)
      (acc : Option ProviderError),
      (∀ q ∈ pre, ∀ v', assocGet client.providers q ≠ some (.ok v')) →
      assocGet client.providers p = some (.ok v) →
      tryProvidersInOrder client query (pre ++ p :: post) acc =
        (.ok { results := v, providers_used := [p], query := query },
         pre.filter (fun q => (assocGet client.providers q).isSome) ++ [p]) := by
  intro pre
  induction pre with
  | nil =>
      intro p post v acc _ hp
      simp [tryProvidersInOrder, hp]
  | cons x xs ih =>
      intro p post v acc hpre hp
      have hxs : ∀ q ∈ xs, ∀ v', assocGet client.providers q ≠ some (.ok v') :=
        fun q hq => hpre q (List.mem_cons_of_mem x hq)
      cases hx : assocGet client.providers x with
      | none =>
          simp only [List.cons_append, tryProvidersInOrder, hx, List.append_eq]
          rw [ih p post v acc hxs hp]
          simp [List.filter_cons, hx]
      | some r =>
          cases r with
          | ok v' => exact absurd hx (hpre x (List.mem_cons_self x xs) v')
          | error e =>
              simp only [List.cons_append, tryProvidersInOrder, hx, List.append_eq]
              rw [ih p post v (some e) hxs hp]
              simp [List.filter_cons, hx]

theorem tryOrder_all_fail (client : OmnisearchClient) (query : String) :
    ∀ (order : List String) (acc : Option ProviderError),
      (∀ q ∈ order, ∀ v', assocGet client.providers q ≠ some (.ok v')) →
      tryProvidersInOrder client query order acc =
        ((match lastTriedError client order acc with
          | some e => .error e
          | none => .error noProvidersError),
         order.filter (fun q => (assocGet client.providers q).isSome)) := by
  intro order
  induction order with
  | nil =>
      intro acc _
      cases acc <;> simp [tryProvidersInOrder, lastTriedError]
  | cons x xs ih =>
      intro acc h
      have hxs : ∀ q ∈ xs, ∀ v', assocGet client.providers q ≠ some (.ok v') :=
        fun q hq => h q (List.mem_cons_of_mem x hq)
      cases hx : assocGet client.providers x with
      | none =>
          simp only [tryProvidersInOrder, lastTriedError, hx]
          rw [ih acc hxs]
          simp [List.filter_cons, hx]
      | some r =>
          cases r with
          | ok v' => exact absurd hx (h x (List.mem_cons_self x xs) v')
          | error e =>
              simp only [tryProvidersInOrder, lastTriedError, hx]
              rw [ih (some e) hxs]
              simp [List.filter_cons, hx]

theorem tryOrder_congr (c1 c2 : OmnisearchClient) (query : String)
    (hp : ∀ p, assocGet c1.providers p = assocGet c2.providers p) :
    ∀ (order : List String) (acc : Option ProviderError),
      tryProvidersInOrder c1 query order acc = tryProvidersInOrder c2 query order acc := by
  intro order
  induction order with
  | nil => intro acc; rfl
  | cons x xs ih =>
      intro acc
      have hx2 : assocGet c2.providers x = assocGet c1.providers x := (hp x).symm
      cases hx : assocGet c1.providers x with
      | none =>
          rw [hx] at hx2
          simp only [tryProvidersInOrder, hx, hx2, ih]
      | some r =>
          rw [hx] at hx2
          cases r with
          | ok v' => simp only [tryProvidersInOrder, hx, hx2]
          | error e => simp only [tryProvidersInOrder, hx, hx2, ih]

theorem multiTry_tried (client : OmnisearchClient) (query : String) :
    ∀ (names : List String),
      (multiTry client query names).snd = takeUntilFirstOk client names := by
  intro names
  induction names with
  | nil => rfl
  | cons x xs ih =>
      cases hx : assocGet client.providers x with
      | none => simp only [multiTry, takeUntilFirstOk, hx, ih]
      | some r =>
          cases r with
          | ok v' => simp only [multiTry, takeUntilFirstOk, hx]
          | error e => simp only [multiTry, takeUntilFirstOk, hx, ih]

/-! ## Claim C1: cache-first dispatch -/

/-- Claim C1 is false on the code: the client dispatcher performs no cache
    consultation. With the cache holding the fingerprint of the request, the dispatch still
    invokes the registered tavily adapter and returns its fresh results — and
    `SearchResponse` carries no cache-hit flag at all. -/
theorem client_C1_counterexample : ¬ CacheFirstDispatchProp := by
  intro h
  have h2 := (h cmC1 clientC1 reqC1 0 [cachedC1] rfl).2
  exact absurd h2 (by decide)

/-- Claim C1 (amended): the dispatch path of `OmnisearchClient::search` never consults
    the Cache Store: even when the cache manager holds an entry for the fingerprint of
    the request, the dispatcher invokes the (preferred) provider adapter and returns
    the fresh results of the adapter with that provider in `providers_used`; its response
    carries no cache-hit flag (the cache manager is wired only into the health
    subsystem, not into dispatch). -/
theorem client_C1_amended :
    ∀ (cm : CacheManager) (client : OmnisearchClient) (req : SearchRequest) (now : Nat)
      (v results : List SearchResult) (p : String),
    cm.get (requestFingerprint req) now = .ok (some v) →
    req.preferred_provider = some p →
    assocGet client.providers p = some (.ok results) →
    client.search req =
      (.ok { results := results, providers_used := [p], query := req.query }, [p]) := by
  intro cm client req now v results p hcache hpref hlookup
  simp [OmnisearchClient.search, hpref, hlookup]

/-- Witness for `client_C1_amended`: the cache holds the fingerprint of the
    tavily-preferring request, yet the dispatch invokes tavily and returns its fresh
    result. -/
theorem client_C1_amended_witness :
    clientC1.search reqC1pref =
      (.ok { results := [freshC1], providers_used := ["tavily"], query := "rust" },
       ["tavily"]) :=
  client_C1_amended cmC1 clientC1 reqC1pref 0 [cachedC1] [freshC1] "tavily"
    rfl rfl (by decide)

/-! ## Claim C6: priority-order fallback, first success wins -/

/-- Claim C6: with no caller-named provider, candidates are tried in the fixed priority
    order. First part: if every candidate before `p` in the priority order is
    unregistered or failing and `p` is registered and succeeds with `v`, then `search`
    returns `v` with `providers_used = [p]`, and the invoked providers are exactly the
    registered earlier candidates followed by `p` — no later candidate is invoked.
    Second part: if every registered candidate fails, `search` returns the last
    observed error, or the generic no-providers-available error when no candidate was
    attempted. -/
theorem client_C6 :
    ∀ (client : OmnisearchClient) (req : SearchRequest),
    req.preferred_provider = none →
    ((∀ (pre : List String) (p : String) (post : List String) (v : List SearchResult),
        provider_order = pre ++ p :: post →
        (∀ q ∈ pre, ∀ v', assocGet client.providers q ≠ some (.ok v')) →
        assocGet client.providers p = some (.ok v) →
        client.search req =
          (.ok { results := v, providers_used := [p], query := req.query },
           pre.filter (fun q => (assocGet client.providers q).isSome) ++ [p])) ∧
     ((∀ q ∈ provider_order, ∀ v', assocGet client.providers q ≠ some (.ok v')) →
        client.search req =
          ((match lastTriedError client provider_order none with
            | some e => .error e
            | none => .error noProvidersError),
           provider_order.filter (fun q => (assocGet client.providers q).isSome)))) := by
  intro client req hpref
  constructor
  · intro pre p post v horder hpre hp
    show OmnisearchClient.search client req = _
    rw [OmnisearchClient.search, hpref, horder]
    exact tryOrder_first_ok client req.query pre p post v none hpre hp
  · intro hall
    show OmnisearchClient.search client req = _
    rw [OmnisearchClient.search, hpref]
    exact tryOrder_all_fail client req.query provider_order none hall

/-- Witness for `client_C6` at `clientC6`: tavily fails, google succeeds, the
    dispatch returns the google results having invoked exactly tavily then google. -/
theorem client_C6_witness :
    clientC6.search reqC6 =
      (.ok { results := [rC6], providers_used := ["google"], query := "q6" },
       ["tavily", "google"]) := by
  have h := (client_C6 clientC6 reqC6 rfl).1 ["tavily"] "google"
    ["duckduckgo", "reddit", "exa", "brave"] [rC6] rfl
    (by
      intro q hq v' hv
      simp at hq
      subst hq
      have htav : assocGet clientC6.providers "tavily" = some (Except.error eC6) := by decide
      rw [htav] at hv
      exact Except.noConfusion (Option.some.inj hv))
    (by decide)
  simpa using h

/-! ## Claim C7: candidate order determined by priority and registered set -/

/-- Claim C7 is false on the code: `multi_search` without a preferred provider walks
    the provider `HashMap` in iteration order, which is not determined by the
    registered set. Two clients registering identical providers in opposite map orders
    invoke different candidates for the same request. -/
theorem client_C7_counterexample : ¬ OrderDeterminedProp := by
  intro h
  have hperm : cC7a.providers.Perm cC7b.providers := List.Perm.swap _ _ _
  have h2 := (h cC7a cC7b reqC7 1 hperm).2
  exact absurd h2 (by decide)

/-- Claim C7 (amended): the behaviour of the `search` path (hence its tried-candidate
    sequence) is determined solely by the fixed priority order and the provider map
    contents — clients with pointwise-equal provider maps dispatch identically; but
    `multi_search` without a preferred provider draws its candidates from the provider
    map iteration order truncated to `max_providers`, invoking them in that order
    until the first success — an order the registered set alone does not determine. -/
theorem client_C7_amended :
    ∀ (c1 c2 : OmnisearchClient) (req : SearchRequest) (m : Nat),
    ((∀ p, assocGet c1.providers p = assocGet c2.providers p) →
      c1.search req = c2.search req) ∧
    (req.preferred_provider = none →
      (c1.multi_search req m).snd =
        takeUntilFirstOk c1 ((c1.providers.map Prod.fst).take m)) := by
  intro c1 c2 req m
  constructor
  · intro hp
    rw [OmnisearchClient.search, OmnisearchClient.search]
    cases hpref : req.preferred_provider with
    | none => exact tryOrder_congr c1 c2 req.query hp provider_order none
    | some name =>
        have hx2 : assocGet c2.providers name = assocGet c1.providers name := (hp name).symm
        cases hx : assocGet c1.providers name with
        | none =>
            rw [hx] at hx2
            simp only [hx, hx2]
        | some r =>
            rw [hx] at hx2
            cases r with
            | ok v' => simp only [hx, hx2]
            | error e => simp only [hx, hx2]
  · intro hpref
    rw [OmnisearchClient.multi_search, hpref]
    exact multiTry_tried c1 req.query _

/-- Witness for `client_C7_amended` at the concrete client `cC7a` (bounded to one
    candidate). -/
theorem client_C7_amended_witness :
    cC7a.search reqC7 = cC7a.search reqC7 ∧
    (cC7a.multi_search reqC7 1).snd =
      takeUntilFirstOk cC7a ((cC7a.providers.map Prod.fst).take 1) :=
  ⟨(client_C7_amended cC7a cC7a reqC7 1).1 (fun _ => rfl),
   (client_C7_amended cC7a cC7a reqC7 1).2 rfl⟩

end Omnisearch
